import Mathlib

/-!
Verification of the MCERD process-orchestration module (`modules/mcerd.py`)
of the Potku repository.  The Python source is shallowly embedded: pure
functions become Lean functions, the reactive pipeline becomes folds over
lists of events, and filesystem effects become explicit state passing over
directory listings / path-keyed maps.
-/

set_option autoImplicit false

namespace Potku

/-- Python `str.startswith(p)`: `p` is a prefix of the character sequence. -/
def strStartsWith (s p : String) : Bool :=
  p.data.isPrefixOf s.data

/-- Python `str.endswith(p)`: `p` is a suffix of the character sequence. -/
def strEndsWith (s p : String) : Bool :=
  p.data.isSuffixOf s.data

/-- Python `str.strip()`: drop leading and trailing whitespace.  (Python
strips a slightly larger whitespace set than `Char.isWhitespace`; the
difference is irrelevant for the ASCII output lines MCERD produces.) -/
def pyStrip (s : String) : String :=
  String.mk (((s.data.dropWhile Char.isWhitespace).reverse.dropWhile
    Char.isWhitespace).reverse)

/-- Strip an expected literal character sequence from the front of a line;
`none` when the line does not start with it.  Used to model the literal
segments of the regex `Calculated (\d+) of (\d+) ions \((\d+)%\)`. -/
def stripPrefixChars : List Char → List Char → Option (List Char)
  | [], cs => some cs
  | _ :: _, [] => none
  | p :: ps, c :: cs => if c = p then stripPrefixChars ps cs else none

/-- Maximal run of leading ASCII digits, with the remainder.  Models a
greedy `\d+` that is followed by a non-digit literal in the regex (greedy
matching with backtracking coincides with maximal munch there). -/
def takeDigits : List Char → List Char × List Char
  | [] => ([], [])
  | c :: cs =>
    if c.isDigit then
      let (ds, rest) := takeDigits cs
      (c :: ds, rest)
    else ([], c :: cs)

/-- Value of a base-10 digit string, as Python `int` on a regex `\d+` group. -/
def digitsToNat (ds : List Char) : Nat :=
  ds.foldl (fun a c => 10 * a + (c.toNat - 48)) 0

/-- A `\d+` group: the maximal leading digit run, required nonempty. -/
def takeDigitsPos (cs : List Char) : Option (List Char × List Char) :=
  match takeDigits cs with
  | ([], _) => none
  | (ds, rest) => some (ds, rest)

/-- `re.match` of the compiled pattern
`Calculated (?P<calculated>\d+) of (?P<total>\d+) ions \((?P<percentage>\d+)%\)`
against the start of a line (Python `re.match` anchors only at the start;
trailing characters are allowed). -/
def matchCalc (cs : List Char) : Option (Nat × Nat × Nat) :=
  (stripPrefixChars "Calculated ".data cs).bind fun cs1 =>
  (takeDigitsPos cs1).bind fun p1 =>
  (stripPrefixChars " of ".data p1.2).bind fun cs2 =>
  (takeDigitsPos cs2).bind fun p2 =>
  (stripPrefixChars " ions (".data p2.2).bind fun cs3 =>
  (takeDigitsPos cs3).bind fun p3 =>
  (stripPrefixChars "%)".data p3.2).bind fun _ =>
  some (digitsToNat p1.1, digitsToNat p2.1, digitsToNat p3.1)

/-- The partial-update dictionary returned by `parse_raw_output`: each
field is `some` exactly when the corresponding key is present in the
returned Python dict. -/
structure ParsedOutput where
  calculated : Option Nat
  total : Option Nat
  percentage : Option Nat
  msg : Option String
  deriving DecidableEq, Repr

/-- `parse_raw_output` (mcerd.py lines 396-420): try the `Calculated ...`
pattern; on no match (`AttributeError` from `m.group`), check for the
literal `"Presimulation finished"`, then for a line starting with
`"angave"`, and otherwise pass the line through as an opaque message. -/
def parse_raw_output (raw_line : String) : ParsedOutput :=
  match matchCalc raw_line.data with
  | some (c, t, p) =>
    { calculated := some c, total := some t, percentage := some p, msg := none }
  | none =>
    if raw_line = "Presimulation finished" then
      { calculated := some 0, total := none, percentage := some 0,
        msg := some raw_line }
    else if strStartsWith raw_line "angave" then
      { calculated := none, total := none, percentage := some 100,
        msg := some raw_line }
    else
      { calculated := none, total := none, percentage := none,
        msg := some raw_line }

/-- A well-formed progress line assembled from three digit groups; used to
state that every line of the documented shape is recognized. -/
def calcLine (d1 d2 d3 : List Char) : List Char :=
  "Calculated ".data ++ d1 ++ " of ".data ++ d2 ++ " ions (".data ++ d3
    ++ "%)".data

/-- Output of the first `ops.scan` step of `MCERD.get_pipeline`
(lines 182-185): the dict `{"presim": ..., **parse_raw_output(x)}`. -/
structure Scan1Out where
  presim : Bool
  parsed : ParsedOutput
  deriving DecidableEq, Repr

/-- First `ops.scan` of `get_pipeline`, seeded with `{"presim": True}`:
`presim` becomes `acc["presim"] and x != "Presimulation finished"` and the
parse of the current line is merged in.  Only the `presim` entry of the
accumulator is read, so the accumulator is threaded as that Bool. -/
def scan1 : Bool → List String → List Scan1Out
  | _, [] => []
  | presim, x :: xs =>
    let presim1 := presim && (x != "Presimulation finished")
    { presim := presim1, parsed := parse_raw_output x } :: scan1 presim1 xs

/-- The part of the second scan's accumulator that is actually read:
`acc["calculated"]`, `acc["total"]`, `acc["percentage"]`
(seed `{"calculated": 0, "total": 0, "percentage": 0}`). -/
structure CarryState where
  calculated : Nat
  total : Nat
  percentage : Nat
  deriving DecidableEq, Repr

/-- The full progress record produced by the second scan of
`get_pipeline` (lines 186-196). -/
structure ProgressRecord where
  seed : Nat
  name : String
  presim : Bool
  calculated : Nat
  total : Nat
  percentage : Nat
  msg : String
  deriving DecidableEq, Repr

/-- Second `ops.scan` of `get_pipeline`: inherit `calculated`, `total` and
`percentage` from the accumulator when the current partial update lacks
them; `msg` is `""` when absent, never inherited. -/
def scan2 (seed : Nat) (name : String) : CarryState → List Scan1Out → List ProgressRecord
  | _, [] => []
  | acc, x :: xs =>
    let r : ProgressRecord :=
      { seed := seed, name := name, presim := x.presim,
        calculated := x.parsed.calculated.getD acc.calculated,
        total := x.parsed.total.getD acc.total,
        percentage := x.parsed.percentage.getD acc.percentage,
        msg := x.parsed.msg.getD "" }
    r :: scan2 seed name
      { calculated := r.calculated, total := r.total,
        percentage := r.percentage } xs

/-- `ops.take_while(p, inclusive=True)`: all elements while `p` holds plus
the first element violating `p`, at which the stream ends. -/
def takeWhileInclusive {α : Type} (p : α → Bool) : List α → List α
  | [] => []
  | x :: xs => if p x then x :: takeWhileInclusive p xs else [x]

/-- The line pre-processing of `get_pipeline`: decode+strip each raw line
(lines are already Lean strings, so decoding is the identity), then
`take_while(not startswith "angave", inclusive=True)`. -/
def processedLines (lines : List String) : List String :=
  takeWhileInclusive (fun l => !(strStartsWith l "angave")) (lines.map pyStrip)

/-- `MCERD.get_pipeline seed name` applied to a finite list of raw output
lines: strip, cut at the terminal marker (inclusive), then the two scans. -/
def pipelineRecords (seed : Nat) (name : String) (lines : List String) :
    List ProgressRecord :=
  scan2 seed name { calculated := 0, total := 0, percentage := 0 }
    (scan1 true (processedLines lines))

/-- One event observed by `rx.combine_latest(merged, is_running)` in
`MCERD.run`: either the merged-and-folded pipeline emits a progress
record, or the liveness poll (`rx.timer(0, 10)` mapped through
`poll() is None`) emits a boolean. -/
inductive MergeEvent where
  | record (r : ProgressRecord)
  | liveness (b : Bool)
  deriving DecidableEq, Repr

/-- The dict `{**x[0], "is_running": x[1]}` built in `MCERD.run`
(lines 150-153): the latest progress record stamped with the latest
liveness value. -/
structure CombinedRecord where
  progress : ProgressRecord
  is_running : Bool
  deriving DecidableEq, Repr

/-- `rx.combine_latest`: keep the latest value of each source; once both
sources have produced a value, every event from either source emits the
pair of latest values. -/
def combine_latest (r0 : Option ProgressRecord) (l0 : Option Bool) :
    List MergeEvent → List CombinedRecord
  | [] => []
  | .record x :: rest =>
    match l0 with
    | some b => ⟨x, b⟩ :: combine_latest (some x) (some b) rest
    | none => combine_latest (some x) none rest
  | .liveness b :: rest =>
    match r0 with
    | some x => ⟨x, b⟩ :: combine_latest (some x) (some b) rest
    | none => combine_latest none (some b) rest

/-- The predicate of the outer `ops.take_while` in `MCERD.run`
(lines 154-156): `x["is_running"] and not x["msg"].startswith("angave")`. -/
def run_take_pred (c : CombinedRecord) : Bool :=
  c.is_running && !(strStartsWith c.progress.msg "angave")

/-- The combined progress stream of `MCERD.run` for one interleaving of
pipeline records and liveness polls: combine-latest, then the inclusive
take-while on liveness and the terminal marker. -/
def run_stream (events : List MergeEvent) : List CombinedRecord :=
  takeWhileInclusive run_take_pred (combine_latest none none events)

/-- Liveness of the child process as far as `stop_process` and
`Popen.kill` can observe it. -/
inductive ProcStatus where
  | running
  | exited
  deriving DecidableEq, Repr

/-- The child process handle: its status and how many kill signals have
actually been delivered to a live process (to state that repeated
`stop_process` calls do not duplicate-kill). -/
structure MProcess where
  status : ProcStatus
  kills_delivered : Nat
  deriving DecidableEq, Repr

/-- `subprocess.Popen.kill()` on POSIX, modelled from CPython semantics:
`send_signal` first polls the process and only delivers the signal when
the process has not already exited; killing an already-exited process is
a no-op and never raises. -/
def popen_kill (p : MProcess) : MProcess :=
  match p.status with
  | .running => { status := .exited, kills_delivered := p.kills_delivered + 1 }
  | .exited => p

/-- `subprocess.call("TASKKILL /F /PID <pid> /T")` on Windows: forcefully
terminates a live process tree; on a dead pid TASKKILL merely returns a
nonzero exit code, which `subprocess.call` reports without raising. -/
def taskkill_f (p : MProcess) : MProcess :=
  match p.status with
  | .running => { status := .exited, kills_delivered := p.kills_delivered + 1 }
  | .exited => p

/-- `MCERD.stop_process` (lines 200-207): dispatch on `platform.system()`;
on any other platform the body does nothing. -/
def stop_process (os_name : String) (p : MProcess) : MProcess :=
  if os_name = "Windows" then taskkill_f p
  else if os_name = "Linux" || os_name = "Darwin" then popen_kill p
  else p

/-- An element of a layer.  The element class lives in a module that is
not part of the embedded sources, so its two rendering methods
(`get_mcerd_params()` and `get_mcerd_params(return_amount=True)`) are
modelled as stored strings. -/
structure MElement where
  mcerd_params : String
  mcerd_params_amount : String
  deriving DecidableEq, Repr

/-- A layer of the target or of a detector foil; `get_mcerd_params()` of
the layer class is modelled as stored lines. -/
structure MLayer where
  elements : List MElement
  mcerd_params : List String
  deriving DecidableEq, Repr

/-- The beam descriptor; `get_mcerd_params()` and the rendered
`"%0.1f %0.1f mm" % beam.spot_size` string are modelled as stored data
(the beam module is not among the embedded sources). -/
structure MBeam where
  mcerd_params : List String
  spot_size_str : String
  deriving DecidableEq, Repr

/-- The target descriptor: ordered layers plus the rendered target angle. -/
structure MTarget where
  layers : List MLayer
  target_theta : String
  deriving DecidableEq, Repr

/-- A detector foil: its layers and its own `get_mcerd_params()` lines. -/
structure MFoil where
  layers : List MLayer
  mcerd_params : List String
  deriving DecidableEq, Repr

/-- The detector descriptor: parameter lines and ordered foils. -/
structure MDetector where
  foils : List MFoil
  mcerd_params : List String
  deriving DecidableEq, Repr

/-- The recoil element descriptor: the fields `MCERD.__init__` and the
content renderers read (`prefix`, `get_full_name()`,
`element.get_prefix()`, `get_mcerd_params()`). -/
structure MRecoilElement where
  prefix_str : String
  full_name : String
  element_prefix : String
  mcerd_params : List String
  deriving DecidableEq, Repr

/-- The settings dictionary handed to `MCERD.__init__`: one `Option` per
key that the module reads; `none` models an absent key (Python
`KeyError`).  Numeric threshold/count values only ever appear
interpolated into f-strings, so they are modelled by their rendered
string form; the seed is also used as data and is kept as a `Nat`. -/
structure MSettings where
  simulation_type : Option String
  sim_dir : Option String
  seed_number : Option Nat
  recoil_element : Option MRecoilElement
  beam : Option MBeam
  target : Option MTarget
  detector : Option MDetector
  minimum_scattering_angle : Option String
  minimum_main_scattering_angle : Option String
  minimum_energy_of_ions : Option String
  number_of_recoils : Option String
  simulation_mode : Option String
  number_of_scaling_ions : Option String
  number_of_ions : Option String
  number_of_ions_in_presimu : Option String
  deriving DecidableEq, Repr

/-- Dictionary lookup `settings[key]`: raises `KeyError` when absent. -/
def req {α : Type} (o : Option α) (key : String) : Except String α :=
  match o with
  | some a => Except.ok a
  | none => Except.error ("KeyError: " ++ key)

/-- The `MCERD` object after `__init__`: the settings plus the derived
file names.  All staged files live in the simulation directory, so files
are identified by their name within that directory. -/
structure MCERD where
  settings : MSettings
  rec_filename : String
  filename : String
  sim_dir : String
  recoil_name : String
  result_name : String
  command_name : String
  target_name : String
  detector_name : String
  foils_name : String
  presim_name : String
  deriving DecidableEq, Repr

/-- `MCERD.__init__` (lines 60-96): derive the staged/result file names
from the settings and the base filename. -/
def mkMCERD (settings : MSettings) (filename : String)
    (optimize_fluence : Bool) : Except String MCERD := do
  let rec_elem ← req settings.recoil_element "recoil_element"
  let rec_filename :=
    if optimize_fluence then rec_elem.prefix_str ++ "-optfl"
    else rec_elem.full_name
  let sim_dir ← req settings.sim_dir "sim_dir"
  let sim_type ← req settings.simulation_type "simulation_type"
  let suffix := if sim_type = "ERD" then "recoil" else "scatter"
  let seed ← req settings.seed_number "seed_number"
  return {
    settings := settings
    rec_filename := rec_filename
    filename := filename
    sim_dir := sim_dir
    recoil_name := rec_filename ++ "." ++ suffix
    result_name := rec_filename ++ "." ++ toString seed ++ ".erd"
    command_name := rec_filename
    target_name := filename ++ ".erd_target"
    detector_name := filename ++ ".erd_detector"
    foils_name := filename ++ ".foils"
    presim_name := filename ++ ".pre" }

/-- Full path of a file in the simulation directory, as interpolated into
the command/detector file contents (POSIX separator). -/
def simPath (m : MCERD) (name : String) : String :=
  m.sim_dir ++ "/" ++ name

/-- `MCERD.get_command_file_contents` (lines 238-272): the settings keys
are read in source order; any absent key raises before a contents string
exists. -/
def get_command_file_contents (m : MCERD) : Except String String := do
  let beam ← req m.settings.beam "beam"
  let target ← req m.settings.target "target"
  let recoil_element ← req m.settings.recoil_element "recoil_element"
  let min_scat_angle ← req m.settings.minimum_scattering_angle
    "minimum_scattering_angle"
  let min_main_scat_angle ← req m.settings.minimum_main_scattering_angle
    "minimum_main_scattering_angle"
  let min_ene_ions ← req m.settings.minimum_energy_of_ions
    "minimum_energy_of_ions"
  let rec_count ← req m.settings.number_of_recoils "number_of_recoils"
  let sim_mode ← req m.settings.simulation_mode "simulation_mode"
  let scale_ion_count ← req m.settings.number_of_scaling_ions
    "number_of_scaling_ions"
  let ions_in_presim ← req m.settings.number_of_ions_in_presimu
    "number_of_ions_in_presimu"
  let seed ← req m.settings.seed_number "seed_number"
  let sim_type ← req m.settings.simulation_type "simulation_type"
  let number_of_ions ← req m.settings.number_of_ions "number_of_ions"
  return String.intercalate "\n" (
    ["Type of simulation: " ++ sim_type]
    ++ beam.mcerd_params
    ++ ["Target description file: " ++ simPath m m.target_name,
        "Detector description file: " ++ simPath m m.detector_name,
        "Recoiling atom: " ++ recoil_element.element_prefix,
        "Recoiling material distribution: " ++ simPath m m.recoil_name,
        "Target angle: " ++ target.target_theta ++ " deg",
        "Beam spot size: " ++ beam.spot_size_str,
        "Minimum angle of scattering: " ++ min_scat_angle ++ " deg",
        "Minimum main scattering angle: " ++ min_main_scat_angle ++ " deg",
        "Minimum energy of ions: " ++ min_ene_ions ++ " MeV",
        "Average number of recoils per primary ion: " ++ rec_count,
        "Recoil angle width (wide or narrow): " ++ sim_mode,
        "Presimulation * result file: " ++ simPath m m.presim_name,
        "Number of real ions per each scaling ion: " ++ scale_ion_count,
        "Number of ions: " ++ number_of_ions,
        "Number of ions in the presimulation: " ++ ions_in_presim,
        "Seed number of the random number generator: " ++ toString seed])

/-- `MCERD.get_detector_file_contents` (lines 274-286). -/
def get_detector_file_contents (m : MCERD) : Except String String := do
  let detector ← req m.settings.detector "detector"
  let foils := String.intercalate "\n----------\n"
    (detector.foils.map (fun foil => String.intercalate "\n" foil.mcerd_params))
  return String.intercalate "\n" (
    detector.mcerd_params
    ++ ["Description file for the detector foils: " ++ simPath m m.foils_name,
        "==========",
        foils])

/-- Modelled from the spec: `Layer.get_default_mcerd_params` lives in
`modules/layer.py`, which is not among the embedded sources; §4.1 only
calls it "a fixed default-layer block" for surface calculation.  Its
contents are opaque and no claim depends on them, so the fixed block is
modelled as empty. -/
def Layer_get_default_mcerd_params : List String := []

/-- Per-element `<index> <amount>` lines with a running element index. -/
def elementsIndexed : Nat → List MElement → List String
  | _, [] => []
  | count, e :: es =>
    (toString count ++ " " ++ e.mcerd_params_amount)
      :: elementsIndexed (count + 1) es

/-- The second pass of `get_target_file_contents`: each layer's own
parameter lines followed by its elements' indexed lines, with the element
index running across layers. -/
def layersIndexed : Nat → List MLayer → List String
  | _, [] => []
  | count, l :: ls =>
    l.mcerd_params ++ elementsIndexed count l.elements
      ++ layersIndexed (count + l.elements.length) ls

/-- `MCERD.get_target_file_contents` (lines 288-310). -/
def get_target_file_contents (m : MCERD) : Except String String := do
  let target ← req m.settings.target "target"
  let cont := target.layers.flatMap
    (fun layer => layer.elements.map (fun e => e.mcerd_params))
  return String.intercalate "\n"
    (cont ++ Layer_get_default_mcerd_params ++ layersIndexed 0 target.layers)

/-- First pass of `get_foils_file_contents`: only the first layer of each
foil is emitted (the `break` in the source). -/
def foilsFirstPass (fs : List MFoil) : List String :=
  fs.flatMap (fun foil =>
    match foil.layers with
    | [] => []
    | l :: _ => l.elements.map (fun e => e.mcerd_params))

/-- Second pass of `get_foils_file_contents`: per foil, the first layer's
parameter lines and indexed element lines, index running across foils. -/
def foilsIndexed : Nat → List MFoil → List String
  | _, [] => []
  | count, f :: fs =>
    match f.layers with
    | [] => foilsIndexed count fs
    | l :: _ =>
      l.mcerd_params ++ elementsIndexed count l.elements
        ++ foilsIndexed (count + l.elements.length) fs

/-- `MCERD.get_foils_file_contents` (lines 312-338). -/
def get_foils_file_contents (m : MCERD) : Except String String := do
  let detector ← req m.settings.detector "detector"
  return String.intercalate "\n"
    (foilsFirstPass detector.foils ++ foilsIndexed 0 detector.foils)

/-- `MCERD.get_recoil_file_contents` (lines 232-236). -/
def get_recoil_file_contents (m : MCERD) : Except String String := do
  let recoil_element ← req m.settings.recoil_element "recoil_element"
  return String.intercalate "\n" recoil_element.mcerd_params

/-- A content-carrying view of the simulation directory: file name to
file contents. -/
def FSc : Type := String → Option String

/-- Write (create or overwrite) one file. -/
def setFile (fs : FSc) (name contents : String) : FSc :=
  fun q => if q = name then some contents else fs q

/-- One `with open(path, "w") as file: file.write(mk_contents())` block:
`open(..., "w")` creates/truncates the file to empty *before* the
contents expression is evaluated; if computing the contents raises, the
empty file stays on disk and the error propagates. -/
def writeStep (fs : FSc) (name : String) (contents : Except String String) :
    FSc × Option String :=
  let fs1 := setFile fs name ""
  match contents with
  | .error e => (fs1, some e)
  | .ok s => (setFile fs1 name s, none)

/-- `MCERD.__create_mcerd_files` (lines 209-230): write the command,
detector, target, foils and recoil files in that order; the first raised
error aborts the remaining writes and propagates. -/
def create_mcerd_files (m : MCERD) (fs : FSc) : FSc × Option String :=
  match writeStep fs m.command_name (get_command_file_contents m) with
  | (fs1, some e) => (fs1, some e)
  | (fs1, none) =>
    match writeStep fs1 m.detector_name (get_detector_file_contents m) with
    | (fs2, some e) => (fs2, some e)
    | (fs2, none) =>
      match writeStep fs2 m.target_name (get_target_file_contents m) with
      | (fs3, some e) => (fs3, some e)
      | (fs3, none) =>
        match writeStep fs3 m.foils_name (get_foils_file_contents m) with
        | (fs4, some e) => (fs4, some e)
        | (fs4, none) =>
          match writeStep fs4 m.recoil_name (get_recoil_file_contents m) with
          | (fs5, some e) => (fs5, some e)
          | (fs5, none) => (fs5, none)

/-- The staging phase of `MCERD.run` (lines 115-132): create the files;
the subprocess is spawned only when staging completed without an error.
The final component tells whether `subprocess.Popen` was reached. -/
def run_launches (m : MCERD) (fs : FSc) : FSc × Option String × Bool :=
  match create_mcerd_files m fs with
  | (fs1, some e) => (fs1, some e, false)
  | (fs1, none) => (fs1, none, true)

/-- A required settings field (one read during staging) is absent. -/
def requiredMissing (s : MSettings) : Bool :=
  s.beam.isNone || s.target.isNone || s.recoil_element.isNone
    || s.detector.isNone || s.minimum_scattering_angle.isNone
    || s.minimum_main_scattering_angle.isNone
    || s.minimum_energy_of_ions.isNone || s.number_of_recoils.isNone
    || s.simulation_mode.isNone || s.number_of_scaling_ions.isNone
    || s.number_of_ions_in_presimu.isNone || s.seed_number.isNone
    || s.simulation_type.isNone || s.number_of_ions.isNone

/-- `os.remove` on a directory listing: removing a file that is not there
raises `FileNotFoundError` (an `OSError`). -/
def os_remove (fs : List String) (name : String) : Except Unit (List String) :=
  if name ∈ fs then Except.ok (fs.erase name) else Except.error ()

/-- The `for file in os.listdir(...)` loop of `delete_unneeded_files`
(lines 377-389): per listed file, try to remove it when it starts with
the recoil filename and ends in `.out`/`.dat`/`.range` (a failure hits
`continue`, skipping the rest of that iteration), then — unless
`continue` fired — try to remove it when it starts with the recoil
filename and ends in `.pre` (a failure is swallowed). -/
def scanLoop (m : MCERD) : List String → List String → List String
  | [], fs => fs
  | f :: rest, fs =>
    if strStartsWith f m.rec_filename
        && (strEndsWith f ".out" || strEndsWith f ".dat"
            || strEndsWith f ".range") then
      match os_remove fs f with
      | .error _ => scanLoop m rest fs
      | .ok fs1 =>
        if strStartsWith f m.rec_filename && strEndsWith f ".pre" then
          match os_remove fs1 f with
          | .error _ => scanLoop m rest fs1
          | .ok fs2 => scanLoop m rest fs2
        else scanLoop m rest fs1
    else
      if strStartsWith f m.rec_filename && strEndsWith f ".pre" then
        match os_remove fs f with
        | .error _ => scanLoop m rest fs
        | .ok fs1 => scanLoop m rest fs1
      else scanLoop m rest fs

/-- `MCERD.delete_unneeded_files` (lines 365-389): one `try` block removes
the command, detector, target and foils files in sequence — the first
`OSError` abandons the remaining removals of that block (`except OSError:
pass`) — then the directory is listed and scanned. -/
def delete_unneeded_files (m : MCERD) (fs : List String) : List String :=
  let fs4 :=
    match os_remove fs m.command_name with
    | .error _ => fs
    | .ok fs1 =>
      match os_remove fs1 m.detector_name with
      | .error _ => fs1
      | .ok fs2 =>
        match os_remove fs2 m.target_name with
        | .error _ => fs2
        | .ok fs3 =>
          match os_remove fs3 m.foils_name with
          | .error _ => fs3
          | .ok fs4 => fs4
  scanLoop m fs4 fs4

/-- `shutil.copy(src_file, destination_dir)`: the source is opened first,
so a missing source raises `FileNotFoundError` before anything is written
to the destination; on success the destination directory gains (or
overwrites) a file of the same name. -/
def shutil_copy (src dst : List String) (name : String) :
    Except Unit (List String) :=
  if name ∈ src then
    Except.ok (if name ∈ dst then dst else name :: dst)
  else Except.error ()

/-- `MCERD.copy_recoil` (lines 353-363): copy the recoil file; the
`except FileNotFoundError: raise` re-raises unchanged.  The Bool marks
whether the call raised. -/
def copy_recoil (m : MCERD) (src dst : List String) : List String × Bool :=
  match shutil_copy src dst m.recoil_name with
  | .ok d => (d, false)
  | .error _ => (dst, true)

/-- `MCERD.copy_results` (lines 340-351): copy the result file, then the
recoil file; a `FileNotFoundError` from either copy is re-raised
unchanged, and a failure of the first copy prevents the second. -/
def copy_results (m : MCERD) (src dst : List String) : List String × Bool :=
  match shutil_copy src dst m.result_name with
  | .error _ => (dst, true)
  | .ok d1 => copy_recoil m src d1

/-! ## Concrete instances used by witnesses and counterexamples -/

/-- The single record the pipeline folds out of the one-line output
`["hello"]` (seed 1, name "p"). -/
def rHello : ProgressRecord :=
  { seed := 1, name := "p", presim := true, calculated := 0, total := 0,
    percentage := 0, msg := "hello" }

/-- A concrete settings bundle: the four keys `__init__` reads are
present (recoil element `C-dist`, kind ERD, seed 42); every key the
staging renderers read — `beam` among them — is absent. -/
def sC : MSettings :=
  { simulation_type := some "ERD", sim_dir := some "sd",
    seed_number := some 42,
    recoil_element := some
      { prefix_str := "C", full_name := "C-dist", element_prefix := "C",
        mcerd_params := [] },
    beam := none, target := none, detector := none,
    minimum_scattering_angle := none,
    minimum_main_scattering_angle := none,
    minimum_energy_of_ions := none, number_of_recoils := none,
    simulation_mode := none, number_of_scaling_ions := none,
    number_of_ions := none, number_of_ions_in_presimu := none }

/-- The `MCERD` object `__init__` derives from `sC` with base filename
`sim`: command file named after the recoil (`C-dist`), recoil
distribution file `C-dist.recoil`, result file `C-dist.42.erd`. -/
def mC : MCERD :=
  { settings := sC, rec_filename := "C-dist", filename := "sim",
    sim_dir := "sd", recoil_name := "C-dist.recoil",
    result_name := "C-dist.42.erd", command_name := "C-dist",
    target_name := "sim.erd_target", detector_name := "sim.erd_detector",
    foils_name := "sim.foils", presim_name := "sim.pre" }

/-- The empty simulation directory (no file has any contents). -/
def fscEmpty : FSc := fun _ => none

/-! ## Supporting lemmas -/

theorem mkMCERD_mC : mkMCERD sC "sim" false = Except.ok mC := rfl

theorem stripPrefixChars_append (p r : List Char) :
    stripPrefixChars p (p ++ r) = some r := by
  induction p with
  | nil => rfl
  | cons c cs ih => simp [stripPrefixChars, ih]

theorem takeDigits_append (ds r : List Char)
    (hd : ∀ c ∈ ds, c.isDigit = true)
    (hr : ∀ c cs, r = c :: cs → c.isDigit = false) :
    takeDigits (ds ++ r) = (ds, r) := by
  induction ds with
  | nil =>
    cases r with
    | nil => rfl
    | cons c cs => simp [takeDigits, hr c cs rfl]
  | cons d ds ih =>
    have hdd : d.isDigit = true := hd d (List.mem_cons_self d ds)
    have ih' := ih (fun c hc => hd c (List.mem_cons_of_mem d hc))
    simp [takeDigits, hdd, ih']

theorem takeDigitsPos_append (ds r : List Char) (hne : ds ≠ [])
    (hd : ∀ c ∈ ds, c.isDigit = true)
    (hr : ∀ c cs, r = c :: cs → c.isDigit = false) :
    takeDigitsPos (ds ++ r) = some (ds, r) := by
  unfold takeDigitsPos
  rw [takeDigits_append ds r hd hr]
  cases ds with
  | nil => exact absurd rfl hne
  | cons d ds' => rfl

theorem matchCalc_calcLine (d1 d2 d3 : List Char)
    (h1 : d1 ≠ []) (h2 : d2 ≠ []) (h3 : d3 ≠ [])
    (hd1 : ∀ c ∈ d1, c.isDigit = true) (hd2 : ∀ c ∈ d2, c.isDigit = true)
    (hd3 : ∀ c ∈ d3, c.isDigit = true) :
    matchCalc (calcLine d1 d2 d3) =
      some (digitsToNat d1, digitsToNat d2, digitsToNat d3) := by
  have e1 : calcLine d1 d2 d3 = "Calculated ".data
      ++ (d1 ++ (" of ".data ++ (d2 ++ (" ions (".data
        ++ (d3 ++ "%)".data))))) := by
    simp [calcLine]
  have t1 := takeDigitsPos_append d1
    (" of ".data ++ (d2 ++ (" ions (".data ++ (d3 ++ "%)".data)))) h1 hd1
    (fun c cs h => by injection h with hc _; rw [← hc]; rfl)
  have t2 := takeDigitsPos_append d2
    (" ions (".data ++ (d3 ++ "%)".data)) h2 hd2
    (fun c cs h => by injection h with hc _; rw [← hc]; rfl)
  have t3 := takeDigitsPos_append d3 ("%)".data) h3 hd3
    (fun c cs h => by injection h with hc _; rw [← hc]; rfl)
  rw [matchCalc, e1]
  simp only [stripPrefixChars_append, t1, t2, t3, Option.some_bind]
  rfl

theorem matchCalc_none_of_angave (s : String)
    (h : strStartsWith s "angave" = true) : matchCalc s.data = none := by
  rw [strStartsWith,
    show "angave".data = ['a', 'n', 'g', 'a', 'v', 'e'] from rfl] at h
  cases hd : s.data with
  | nil => rw [hd] at h; exact absurd h (by decide)
  | cons c cs =>
    rw [hd] at h
    simp only [List.isPrefixOf, Bool.and_eq_true, beq_iff_eq] at h
    obtain ⟨hc, -⟩ := h
    rw [← hc]
    rfl

/-! ## Claim theorems -/

/-- Claim C1: `parse_raw_output` is total and recognizes exactly three
shapes, tried in order: a line matching
`Calculated <N> of <M> ions (<P>%)` yields
`{calculated: N, total: M, percentage: P}`; the literal
`Presimulation finished` yields `{calculated: 0, percentage: 0, msg: line}`;
a line beginning with `angave` yields `{msg: line, percentage: 100}`; any
other line — including a malformed `Calculated...` line that fails the
numeric pattern — yields exactly `{msg: line}` with no other keys. -/
theorem claim1_parse_raw_output_shapes :
    (∀ d1 d2 d3 : List Char, d1 ≠ [] → d2 ≠ [] → d3 ≠ [] →
      (∀ c ∈ d1, c.isDigit = true) → (∀ c ∈ d2, c.isDigit = true) →
      (∀ c ∈ d3, c.isDigit = true) →
      parse_raw_output (String.mk (calcLine d1 d2 d3)) =
        { calculated := some (digitsToNat d1), total := some (digitsToNat d2),
          percentage := some (digitsToNat d3), msg := none })
  ∧ parse_raw_output "Presimulation finished" =
      { calculated := some 0, total := none, percentage := some 0,
        msg := some "Presimulation finished" }
  ∧ (∀ s : String, strStartsWith s "angave" = true →
      parse_raw_output s =
        { calculated := none, total := none, percentage := some 100,
          msg := some s })
  ∧ (∀ s : String, matchCalc s.data = none → s ≠ "Presimulation finished" →
      strStartsWith s "angave" = false →
      parse_raw_output s =
        { calculated := none, total := none, percentage := none,
          msg := some s }) := by
  refine ⟨?_, by decide, ?_, ?_⟩
  · intro d1 d2 d3 h1 h2 h3 hd1 hd2 hd3
    have hm := matchCalc_calcLine d1 d2 d3 h1 h2 h3 hd1 hd2 hd3
    simp [parse_raw_output, hm]
  · intro s hs
    have hm := matchCalc_none_of_angave s hs
    have hne : s ≠ "Presimulation finished" := by
      intro he
      rw [he] at hs
      exact absurd hs (by decide)
    simp [parse_raw_output, hm, hne, hs]
  · intro s hm hne hang
    simp [parse_raw_output, hm, hne, hang]

/-- Witness for C1 at concrete inputs: a well-formed progress line, an
`angave` line, and a malformed `Calculated` line. -/
theorem claim1_witness :
    parse_raw_output
        (String.mk (calcLine ['1', '2', '0'] ['5', '0', '0'] ['2', '4'])) =
      { calculated := some 120, total := some 500, percentage := some 24,
        msg := none }
  ∧ parse_raw_output "angave 2.3" =
      { calculated := none, total := none, percentage := some 100,
        msg := some "angave 2.3" }
  ∧ parse_raw_output "Calculated x of y ions (z%)" =
      { calculated := none, total := none, percentage := none,
        msg := some "Calculated x of y ions (z%)" } :=
  ⟨claim1_parse_raw_output_shapes.1 _ _ _ (by decide) (by decide) (by decide)
      (by decide) (by decide) (by decide),
   claim1_parse_raw_output_shapes.2.2.1 _ (by decide),
   claim1_parse_raw_output_shapes.2.2.2 _ (by decide) (by decide) (by decide)⟩

/-- Claim C2: folding `["Presimulation finished",
"Calculated 10 of 100 ions (10%)", "angave done"]` in order through
`get_pipeline` (any seed and name) produces exactly three records with
`presim` values `false, false, false` (the flip happening on the first
line) and `percentage` values `0, 10, 100`, and the folded stream
terminates after the third record (any further input is ignored because
the inclusive take-while ends the stream at the `angave` line). -/
theorem claim2_pipeline_scenario (seed : Nat) (name : String)
    (extra : List String) :
    (pipelineRecords seed name (["Presimulation finished",
        "Calculated 10 of 100 ions (10%)", "angave done"] ++ extra)).map
      (fun r => (r.presim, r.percentage)) =
      [(false, 0), (false, 10), (false, 100)]
  ∧ (pipelineRecords seed name (["Presimulation finished",
      "Calculated 10 of 100 ions (10%)", "angave done"] ++ extra)).length
      = 3 :=
  ⟨rfl, rfl⟩

theorem scan1_length (b : Bool) (lines : List String) :
    (scan1 b lines).length = lines.length := by
  induction lines generalizing b with
  | nil => rfl
  | cons x xs ih => simp [scan1, ih]

theorem scan1_presim_gen (lines : List String) (b : Bool) (i : Nat)
    (h : i < (scan1 b lines).length) :
    (((scan1 b lines).get ⟨i, h⟩).presim = true) ↔
      (b = true ∧ "Presimulation finished" ∉ lines.take (i + 1)) := by
  induction lines generalizing b i with
  | nil => exact absurd h (by simp [scan1])
  | cons x xs ih =>
    cases i with
    | zero =>
      simp only [scan1, List.get, List.take_succ_cons, List.take_zero,
        Bool.and_eq_true, bne_iff_ne, List.mem_singleton]
      constructor
      · rintro ⟨hb, hx⟩
        exact ⟨hb, fun he => hx he.symm⟩
      · rintro ⟨hb, hx⟩
        exact ⟨hb, fun he => hx he.symm⟩
    | succ i =>
      have h' : i < (scan1 (b && (x != "Presimulation finished")) xs).length := by
        have := h
        simp [scan1] at this
        simpa [scan1_length] using this
      have step : ((scan1 b (x :: xs)).get ⟨i + 1, h⟩) =
          ((scan1 (b && (x != "Presimulation finished")) xs).get ⟨i, h'⟩) := by
        simp [scan1]
      rw [step, ih _ _ h']
      simp only [Bool.and_eq_true, bne_iff_ne, List.take_succ_cons,
        List.mem_cons, not_or]
      constructor
      · rintro ⟨⟨hb, hx⟩, ht⟩
        exact ⟨hb, fun he => hx he.symm, ht⟩
      · rintro ⟨hb, hx, ht⟩
        exact ⟨⟨hb, fun he => hx he.symm⟩, ht⟩

/-- Claim C6: in the folded parser state, `presim` starts true, becomes
false exactly when the literal line `Presimulation finished` is folded,
and once false never reverts: the `presim` of the i-th record emitted by
the first scan is true precisely when the literal has not occurred among
the first i+1 lines. -/
theorem claim6_presim_flip (lines : List String) (i : Nat)
    (h : i < (scan1 true lines).length) :
    (((scan1 true lines).get ⟨i, h⟩).presim = true) ↔
      "Presimulation finished" ∉ lines.take (i + 1) := by
  rw [scan1_presim_gen lines true i h]
  simp

/-- Witness for C6: on `["a", "Presimulation finished", "b"]` the third
record's `presim` is false because the literal occurred at line 2. -/
theorem claim6_witness :
    2 < (scan1 true ["a", "Presimulation finished", "b"]).length
  ∧ ((((scan1 true ["a", "Presimulation finished", "b"]).get
        ⟨2, by decide⟩).presim = true) ↔
      "Presimulation finished" ∉
        (["a", "Presimulation finished", "b"] : List String).take 3) :=
  ⟨by decide, claim6_presim_flip _ 2 (by decide)⟩

theorem scan2_map_msg (seed : Nat) (name : String) (acc : CarryState)
    (xs : List Scan1Out) :
    (scan2 seed name acc xs).map (fun r => r.msg) =
      xs.map (fun x => (x.parsed.msg).getD "") := by
  induction xs generalizing acc with
  | nil => rfl
  | cons x xs ih => simp [scan2, ih]

theorem scan1_map_parsed_msg (b : Bool) (ls : List String) :
    (scan1 b ls).map (fun x => (x.parsed.msg).getD "") =
      ls.map (fun l => ((parse_raw_output l).msg).getD "") := by
  induction ls generalizing b with
  | nil => rfl
  | cons l ls ih => simp [scan1, ih]

/-- Claim C10 (implicit): the `msg` of an emitted record is never
inherited from the previous record — each record's `msg` is exactly the
`msg` produced by parsing the current (processed) line, or `""` when the
parse produced none; in particular a line matching the
`Calculated <N> of <M> ions (<P>%)` pattern produces no `msg` key, so its
record's `msg` is the empty string even though `calculated`, `total` and
`percentage` are carried forward for lines that lack them. -/
theorem claim10_msg_not_inherited :
    (∀ (seed : Nat) (name : String) (lines : List String),
      (pipelineRecords seed name lines).map (fun r => r.msg) =
        (processedLines lines).map
          (fun l => ((parse_raw_output l).msg).getD ""))
  ∧ (∀ (s : String) (n m p : Nat), matchCalc s.data = some (n, m, p) →
      (parse_raw_output s).msg = none) := by
  constructor
  · intro seed name lines
    rw [pipelineRecords, scan2_map_msg]
    have := scan1_map_parsed_msg true (processedLines lines)
    simpa using this
  · intro s n m p hm
    simp [parse_raw_output, hm]

/-- Witness for C10: a `Calculated` line produces no `msg` key, and on a
one-line input the record's `msg` equals that line's own parse. -/
theorem claim10_witness :
    (parse_raw_output "Calculated 1 of 2 ions (3%)").msg = none
  ∧ (pipelineRecords 1 "x" ["abc"]).map (fun r => r.msg) =
      (processedLines ["abc"]).map
        (fun l => ((parse_raw_output l).msg).getD "") :=
  ⟨claim10_msg_not_inherited.2 _ 1 2 3 (by decide),
   claim10_msg_not_inherited.1 1 "x" ["abc"]⟩

theorem takeWhileInclusive_length_le {α : Type} (p : α → Bool)
    (xs : List α) : (takeWhileInclusive p xs).length ≤ xs.length := by
  induction xs with
  | nil => exact Nat.le_refl 0
  | cons x xs ih =>
    by_cases hp : p x = true
    · simpa [takeWhileInclusive, hp] using ih
    · simp [takeWhileInclusive, hp]

theorem takeWhileInclusive_pred {α : Type} (p : α → Bool) (xs : List α)
    (i : Nat) (h : i + 1 < (takeWhileInclusive p xs).length) :
    p ((takeWhileInclusive p xs).get ⟨i, Nat.lt_of_succ_lt h⟩) = true := by
  induction xs generalizing i with
  | nil => exact absurd h (by simp [takeWhileInclusive])
  | cons x xs ih =>
    by_cases hp : p x = true
    · have htwi : takeWhileInclusive p (x :: xs) =
          x :: takeWhileInclusive p xs := by
        simp [takeWhileInclusive, hp]
      cases i with
      | zero =>
        have hget := List.get_of_eq htwi ⟨0, Nat.lt_of_succ_lt h⟩
        rw [hget]
        simpa using hp
      | succ i =>
        have hlen : i + 1 < (takeWhileInclusive p xs).length := by
          rw [htwi] at h
          simpa using h
        have hget := List.get_of_eq htwi ⟨i + 1, Nat.lt_of_succ_lt h⟩
        rw [hget]
        simpa using ih i hlen
    · have htwi : takeWhileInclusive p (x :: xs) = [x] := by
        simp [takeWhileInclusive, hp]
      rw [htwi] at h
      exact absurd h (by simp)

theorem combine_latest_length_le (events : List MergeEvent)
    (r0 : Option ProgressRecord) (l0 : Option Bool) :
    (combine_latest r0 l0 events).length ≤ events.length := by
  induction events generalizing r0 l0 with
  | nil => exact Nat.le_refl 0
  | cons e rest ih =>
    cases e with
    | record x =>
      cases l0 with
      | some b => simpa [combine_latest] using ih (some x) (some b)
      | none =>
        calc (combine_latest (some x) none rest).length
            ≤ rest.length := ih (some x) none
          _ ≤ rest.length + 1 := Nat.le_succ _
    | liveness b =>
      cases r0 with
      | some x => simpa [combine_latest] using ih (some x) (some b)
      | none =>
        calc (combine_latest none (some b) rest).length
            ≤ rest.length := ih none (some b)
          _ ≤ rest.length + 1 := Nat.le_succ _

/-- Claim C5 (amended): the combined stream of `MCERD.run` is finite
(bounded by the number of record/liveness events, so it never hangs) and
stops emitting, inclusive of the last item, as soon as liveness is false
or the record's message starts with the terminal marker: every emitted
item except possibly the last satisfies the continue-predicate, so
nothing is emitted after the stopping condition is reached.  (The
original `N+1` bound is false: each liveness poll observing `true` also
triggers an emission, see the counterexample.) -/
theorem claim5_stream_stops (events : List MergeEvent) :
    (run_stream events).length ≤ events.length
  ∧ ∀ (i : Nat) (h : i + 1 < (run_stream events).length),
      run_take_pred ((run_stream events).get ⟨i, Nat.lt_of_succ_lt h⟩)
        = true := by
  constructor
  · exact Nat.le_trans
      (takeWhileInclusive_length_le run_take_pred (combine_latest none none events))
      (combine_latest_length_le events none none)
  · intro i h
    exact takeWhileInclusive_pred run_take_pred (combine_latest none none events) i h

/-- Counterexample for C5 as stated: a process that emits N = 1 line and
then exits, with three liveness polls observing `true` before the final
`false`, makes the combined stream emit 4 records — more than N + 1 = 2 —
because `combine_latest` re-emits the latest record on every liveness
tick. -/
theorem claim5_counterexample :
    pipelineRecords 1 "p" ["hello"] = [rHello]
  ∧ (run_stream [MergeEvent.liveness true, MergeEvent.record rHello,
      MergeEvent.liveness true, MergeEvent.liveness true,
      MergeEvent.liveness false]).length = 4
  ∧ ¬((run_stream [MergeEvent.liveness true, MergeEvent.record rHello,
      MergeEvent.liveness true, MergeEvent.liveness true,
      MergeEvent.liveness false]).length ≤ 1 + 1) := by
  refine ⟨by decide, by decide, by decide⟩

/-- Witness for C5 (amended) on a concrete interleaving. -/
theorem claim5_witness :
    (run_stream [MergeEvent.liveness true, MergeEvent.record rHello,
      MergeEvent.liveness false]).length ≤ 3
  ∧ run_take_pred ((run_stream [MergeEvent.liveness true,
      MergeEvent.record rHello, MergeEvent.liveness false]).get
        ⟨0, by decide⟩) = true :=
  ⟨(claim5_stream_stops _).1,
   (claim5_stream_stops _).2 0 (by decide)⟩

/-- Claim C7: `stop_process` is safe to call when the child has already
exited, and calling it twice in a row is idempotent: the second call
(after the process is dead) is a no-op, never raises (the function is
total), and at most one kill is ever delivered. -/
theorem claim7_stop_process_idempotent (os_name : String) (p : MProcess) :
    stop_process os_name (stop_process os_name p) = stop_process os_name p
  ∧ (stop_process os_name p).kills_delivered ≤ p.kills_delivered + 1
  ∧ (p.status = ProcStatus.exited → stop_process os_name p = p) := by
  rcases p with ⟨st, k⟩
  cases st with
  | running =>
    unfold stop_process
    split_ifs <;> simp [taskkill_f, popen_kill]
  | exited =>
    unfold stop_process
    split_ifs <;> simp [taskkill_f, popen_kill]

/-- Witness for C7: killing an already-exited process on Linux is a
no-op. -/
theorem claim7_witness :
    stop_process "Linux" { status := ProcStatus.exited, kills_delivered := 1 }
      = { status := ProcStatus.exited, kills_delivered := 1 } :=
  (claim7_stop_process_idempotent "Linux"
    { status := ProcStatus.exited, kills_delivered := 1 }).2.2 rfl

/-- Claim C8: `copy_results` reports a missing source as a raised
failure whenever the main result file or the recoil file is absent from
the simulation directory, and when the result file is missing the
destination directory is left unmodified. -/
theorem claim8_copy_results_missing (m : MCERD) (src dst : List String) :
    ((m.result_name ∉ src ∨ m.recoil_name ∉ src) →
      (copy_results m src dst).2 = true)
  ∧ (m.result_name ∉ src → (copy_results m src dst).1 = dst) := by
  by_cases h1 : m.result_name ∈ src
  · by_cases h2 : m.recoil_name ∈ src
    · constructor
      · rintro (hr | hr)
        · exact absurd h1 hr
        · exact absurd h2 hr
      · intro hr
        exact absurd h1 hr
    · constructor
      · intro _
        simp [copy_results, copy_recoil, shutil_copy, h1, h2]
      · intro hr
        exact absurd h1 hr
  · constructor
    · intro _
      simp [copy_results, shutil_copy, h1]
    · intro _
      simp [copy_results, shutil_copy, h1]

theorem req_isSome_of_bind_ok {α β : Type} (o : Option α) (k : String)
    (f : α → Except String β) (b : β) (h : (req o k >>= f) = Except.ok b) :
    o.isSome = true ∧ ∃ a, o = some a ∧ f a = Except.ok b := by
  cases o with
  | none => exact absurd h (by simp [req, Bind.bind, Except.bind])
  | some a =>
    refine ⟨rfl, a, rfl, ?_⟩
    simpa [req, Bind.bind, Except.bind] using h

theorem cmd_contents_fields (m : MCERD) (s : String)
    (h : get_command_file_contents m = Except.ok s) :
    m.settings.beam.isSome = true
  ∧ m.settings.target.isSome = true
  ∧ m.settings.recoil_element.isSome = true
  ∧ m.settings.minimum_scattering_angle.isSome = true
  ∧ m.settings.minimum_main_scattering_angle.isSome = true
  ∧ m.settings.minimum_energy_of_ions.isSome = true
  ∧ m.settings.number_of_recoils.isSome = true
  ∧ m.settings.simulation_mode.isSome = true
  ∧ m.settings.number_of_scaling_ions.isSome = true
  ∧ m.settings.number_of_ions_in_presimu.isSome = true
  ∧ m.settings.seed_number.isSome = true
  ∧ m.settings.simulation_type.isSome = true
  ∧ m.settings.number_of_ions.isSome = true := by
  unfold get_command_file_contents at h
  obtain ⟨h1, a1, -, h⟩ := req_isSome_of_bind_ok _ _ _ _ h
  obtain ⟨h2, a2, -, h⟩ := req_isSome_of_bind_ok _ _ _ _ h
  obtain ⟨h3, a3, -, h⟩ := req_isSome_of_bind_ok _ _ _ _ h
  obtain ⟨h4, a4, -, h⟩ := req_isSome_of_bind_ok _ _ _ _ h
  obtain ⟨h5, a5, -, h⟩ := req_isSome_of_bind_ok _ _ _ _ h
  obtain ⟨h6, a6, -, h⟩ := req_isSome_of_bind_ok _ _ _ _ h
  obtain ⟨h7, a7, -, h⟩ := req_isSome_of_bind_ok _ _ _ _ h
  obtain ⟨h8, a8, -, h⟩ := req_isSome_of_bind_ok _ _ _ _ h
  obtain ⟨h9, a9, -, h⟩ := req_isSome_of_bind_ok _ _ _ _ h
  obtain ⟨h10, a10, -, h⟩ := req_isSome_of_bind_ok _ _ _ _ h
  obtain ⟨h11, a11, -, h⟩ := req_isSome_of_bind_ok _ _ _ _ h
  obtain ⟨h12, a12, -, h⟩ := req_isSome_of_bind_ok _ _ _ _ h
  obtain ⟨h13, a13, -, h⟩ := req_isSome_of_bind_ok _ _ _ _ h
  exact ⟨h1, h2, h3, h4, h5, h6, h7, h8, h9, h10, h11, h12, h13⟩

theorem det_contents_fields (m : MCERD) (s : String)
    (h : get_detector_file_contents m = Except.ok s) :
    m.settings.detector.isSome = true := by
  unfold get_detector_file_contents at h
  obtain ⟨h1, -, -, -⟩ := req_isSome_of_bind_ok _ _ _ _ h
  exact h1

theorem create_ok_parts (m : MCERD) (fs : FSc)
    (h : (create_mcerd_files m fs).2 = none) :
    (∃ s, get_command_file_contents m = Except.ok s)
  ∧ ∃ s, get_detector_file_contents m = Except.ok s := by
  unfold create_mcerd_files writeStep at h
  cases hc : get_command_file_contents m with
  | error e => rw [hc] at h; simp at h
  | ok s =>
    rw [hc] at h
    cases hd : get_detector_file_contents m with
    | error e => rw [hd] at h; simp at h
    | ok s2 => exact ⟨⟨s, rfl⟩, ⟨s2, rfl⟩⟩

/-- Claim C3 (amended): if any settings field referenced during staging
is missing, staging fails fast with a `KeyError` naming the field, the
error is reported to the caller of `run`, and the subprocess is never
launched; however (see the counterexample) the staged file being written
at failure time is still created empty on disk, because `open(..., "w")`
truncates the file before the contents expression is evaluated. -/
theorem claim3_staging_fails_fast (m : MCERD) (fs : FSc)
    (h : requiredMissing m.settings = true) :
    ((run_launches m fs).2.1).isSome = true
  ∧ (run_launches m fs).2.2 = false := by
  have hcreate : ((create_mcerd_files m fs).2).isSome = true := by
    by_contra hc
    have h2 : (create_mcerd_files m fs).2 = none := by
      cases hcc : (create_mcerd_files m fs).2 with
      | none => rfl
      | some e => rw [hcc] at hc; simp at hc
    obtain ⟨⟨s1, hcmd⟩, ⟨s2, hdet⟩⟩ := create_ok_parts m fs h2
    obtain ⟨hb, ht, hre, hmsa, hmmsa, hmei, hnr, hsm, hnsi, hnip, hsn,
      hst, hni⟩ := cmd_contents_fields m s1 hcmd
    have hd : m.settings.detector.isSome = true := det_contents_fields m s2 hdet
    simp only [requiredMissing, Bool.or_eq_true,
      Option.isNone_iff_eq_none] at h
    simp only [Option.isSome_iff_ne_none] at hb ht hre hmsa hmmsa hmei hnr hsm hnsi hnip hsn hst hni hd
    rcases h with ((((((((((((h | h) | h) | h) | h) | h) | h) | h) | h) | h) | h) | h) | h) | h <;> simp_all
  unfold run_launches
  cases hcc : create_mcerd_files m fs with
  | mk fs1 e1 =>
    rw [hcc] at hcreate
    cases e1 with
    | none => simp at hcreate
    | some e => exact ⟨rfl, rfl⟩

/-- Counterexample for C3 as stated: with the `beam` key missing,
staging fails before launch (as it should) but an empty command file has
already been created on disk — an incomplete staged file IS emitted,
contrary to the claim. -/
theorem claim3_counterexample :
    ((run_launches mC fscEmpty).2.1).isSome = true
  ∧ (run_launches mC fscEmpty).2.2 = false
  ∧ (run_launches mC fscEmpty).1 mC.command_name = some "" :=
  ⟨rfl, rfl, rfl⟩

/-- Witness for C3 (amended) on the concrete bundle missing `beam`. -/
theorem claim3_witness :
    requiredMissing mC.settings = true
  ∧ (((run_launches mC fscEmpty).2.1).isSome = true
      ∧ (run_launches mC fscEmpty).2.2 = false) :=
  ⟨by decide, claim3_staging_fails_fast mC fscEmpty (by decide)⟩

/-- Witness for C8: copying from a directory that lacks the result file
raises and leaves the destination untouched. -/
theorem claim8_witness :
    (copy_results mC [] ["keep.txt"]).2 = true
  ∧ (copy_results mC [] ["keep.txt"]).1 = ["keep.txt"] :=
  ⟨(claim8_copy_results_missing mC [] ["keep.txt"]).1 (Or.inl (by decide)),
   (claim8_copy_results_missing mC [] ["keep.txt"]).2 (by decide)⟩

/-- Claim C4 (amended): no removal failure propagates out of
`delete_unneeded_files` (every `OSError` is caught), and removals are
best-effort per file for the *scanned* intermediate files — a failed
removal of one scanned file does not prevent the remaining scan
iterations — and a failure in the staged-file block still lets the scan
phase run; but (see the counterexample) the four staged files share one
`try` block, so a failure on one of them abandons the remaining staged
removals. -/
theorem claim4_scan_best_effort :
    (∀ (m : MCERD) (f : String) (rest fs : List String), f ∉ fs →
      scanLoop m (f :: rest) fs = scanLoop m rest fs)
  ∧ (∀ (m : MCERD) (fs : List String), m.command_name ∉ fs →
      delete_unneeded_files m fs = scanLoop m fs fs) := by
  constructor
  · intro m f rest fs hf
    rw [scanLoop]
    split
    · rw [os_remove, if_neg hf]
    · split
      · rw [os_remove, if_neg hf]
      · rfl
  · intro m fs hf
    rw [delete_unneeded_files, os_remove, if_neg hf]

/-- Counterexample for C4 as stated: the command file is missing, so its
removal raises; the single `except OSError: pass` then abandons the
removals of the detector, target and foils files even though each of
them exists and is removable — a failure on one file DOES abort the
removal of the remaining staged files. -/
theorem claim4_counterexample :
    delete_unneeded_files mC
        ["sim.erd_detector", "sim.erd_target", "sim.foils"] =
      ["sim.erd_detector", "sim.erd_target", "sim.foils"]
  ∧ (os_remove ["sim.erd_detector", "sim.erd_target", "sim.foils"]
      mC.detector_name) =
      Except.ok ["sim.erd_target", "sim.foils"] := by
  refine ⟨by decide, rfl⟩

/-- Witness for C4 (amended) at concrete inputs. -/
theorem claim4_witness :
    scanLoop mC ["C-dist.x.out", "zzz"] ["zzz"] = scanLoop mC ["zzz"] ["zzz"]
  ∧ delete_unneeded_files mC ["sim.foils"] =
      scanLoop mC ["sim.foils"] ["sim.foils"] :=
  ⟨claim4_scan_best_effort.1 mC "C-dist.x.out" ["zzz"] ["zzz"] (by decide),
   claim4_scan_best_effort.2 mC ["sim.foils"] (by decide)⟩

/-- Claim C9 (amended): on a simulation directory holding the five
staged files plus one unrelated file whose name does not start with the
recoil filename, `delete_unneeded_files` removes exactly the four staged
*input* files (command, detector, target, foils); the recoil-distribution
file is NOT removed (it ends in `.recoil`, not one of the scanned
intermediate extensions — it is needed later for spectrum computation),
and the unrelated file is left untouched. -/
theorem claim9_deletes_staged_inputs (u : String)
    (h : strStartsWith u "C-dist" = false) :
    delete_unneeded_files mC ["C-dist", "sim.erd_detector",
      "sim.erd_target", "sim.foils", "C-dist.recoil", u] =
      ["C-dist.recoil", u] := by
  show scanLoop mC [u] ["C-dist.recoil", u] = ["C-dist.recoil", u]
  simp [scanLoop, mC, h]

/-- Counterexample for C9 as stated: the claim says all five staged
files (including the recoil-distribution file) are removed, leaving only
the unrelated file; in fact the recoil file survives. -/
theorem claim9_counterexample :
    delete_unneeded_files mC ["C-dist", "sim.erd_detector",
      "sim.erd_target", "sim.foils", "C-dist.recoil", "other.txt"] =
      ["C-dist.recoil", "other.txt"]
  ∧ ¬(delete_unneeded_files mC ["C-dist", "sim.erd_detector",
      "sim.erd_target", "sim.foils", "C-dist.recoil", "other.txt"] =
      ["other.txt"]) :=
  ⟨by decide, by decide⟩

/-- Witness for C9 (amended) with `other.txt` as the unrelated file. -/
theorem claim9_witness :
    strStartsWith "other.txt" "C-dist" = false
  ∧ delete_unneeded_files mC ["C-dist", "sim.erd_detector",
      "sim.erd_target", "sim.foils", "C-dist.recoil", "other.txt"] =
      ["C-dist.recoil", "other.txt"] :=
  ⟨by decide, claim9_deletes_staged_inputs "other.txt" (by decide)⟩

end Potku
